import Mathlib

/-!
Shallow embedding of the core of `rspong` (`src/main.rs`): the game state
(`Bat`, `Ball`, `GameState`), the physics step `update_ball_position`,
paddle movement `move_bat`, and `GameState.reset`, together with theorems
about the claims of the specification.

Modelling conventions:
- Rust `u16` fields are modelled as `Nat`.  The one place the code relies on
  two's-complement truncation — `((velocity as i32) + (position as i32)) as u16`
  in `update_ball_position` — is modelled explicitly as `wrap16`
  (reduction modulo 2^16).  The `i32` addition itself is exact (no overflow is
  possible for a `u16` plus an `i16`).
- Rust `i16` velocity components are modelled as `Int`; the only arithmetic the
  code performs on them is multiplication by `-1`, modelled as exact integer
  multiplication (in a debug build the Rust `* -1` panics at `i16::MIN` rather
  than wrapping, so no silent-wrap behaviour is lost for in-range values).
- `u16` subtraction (`height - height / 10`, `1000 - height`, `position - offset`)
  maps to `Nat` subtraction; in every use the code guards against underflow
  (`height / 10 ≤ height`, the `offset < position` test in `move_bat`), and the
  `1000 - height` use is covered by the `height ≤ 1000` hypotheses below.
- The mpsc sends of `Renderable` values are modelled as the ordered list of
  signals emitted during one call.
-/

namespace RsPong

/-- The `Renderable` enum of `src/main.rs` (lines 68-73): the render signals. -/
inductive Renderable where
  | Scoreboard : Renderable
  | BatLeft : Renderable
  | BatRight : Renderable
  | Ball : Renderable
deriving Repr, DecidableEq

/-- The `Direction` enum of `src/main.rs` (lines 75-78). -/
inductive Direction where
  | Up : Direction
  | Down : Direction
deriving Repr, DecidableEq

/-- The `Bat` struct of `src/main.rs` (lines 24-31): one paddle. -/
structure Bat where
  up_key : String
  down_key : String
  position : Nat
  height : Nat
  score : Nat
deriving Repr, DecidableEq

/-- The `Ball` struct of `src/main.rs` (lines 33-37): position is a pair of
`u16`, velocity a pair of `i16`. -/
structure Ball where
  position : Nat × Nat
  velocity : Int × Int
deriving Repr, DecidableEq

/-- The `GameState` struct of `src/main.rs` (lines 39-46). -/
structure GameState where
  left : Bat
  right : Bat
  ball : Ball
  is_running : Bool
  is_lost : Bool
deriving Repr, DecidableEq

/-- `impl Default for Ball` (lines 81-88). -/
def Ball.default : Ball :=
  { position := (230, 420), velocity := (15, 5) }

/-- `Bat::default_left` (lines 92-100). -/
def Bat.default_left : Bat :=
  { up_key := "w", down_key := "s", position := 600, score := 0, height := 200 }

/-- `Bat::default_right` (lines 102-110). -/
def Bat.default_right : Bat :=
  { up_key := "o", down_key := "l", position := 600, score := 0, height := 200 }

/-- `Bat::score_up` (lines 112-115): `score += 1;
`height = cmp::max(10, height - height / 10)`. -/
def Bat.score_up (b : Bat) : Bat :=
  { b with score := b.score + 1, height := max 10 (b.height - b.height / 10) }

/-- `GameState::reset` (lines 120-126): every field is overwritten with its
default. -/
def GameState.reset (_g : GameState) : GameState :=
  { left := Bat.default_left, right := Bat.default_right, ball := Ball.default,
    is_running := false, is_lost := false }

/-- `impl Default for GameState` (lines 130-140). -/
def GameState.default : GameState :=
  { left := Bat.default_left, right := Bat.default_right, ball := Ball.default,
    is_running := false, is_lost := false }

/-- The `offset` local of `keypress` (line 290): the fixed paddle step. -/
def keypress_offset : Nat := 50

/-- `move_bat` (lines 346-355).  Up: `position - offset` guarded by
`offset < position`, else `0`.  Down: `cmp::min(1000 - height, position + offset)`. -/
def move_bat (b : Bat) (offset : Nat) (direction : Direction) : Bat :=
  match direction with
  | Direction.Up =>
      { b with position := if offset < b.position then b.position - offset else 0 }
  | Direction.Down =>
      { b with position := min (1000 - b.height) (b.position + offset) }

/-- The `as u16` truncating cast applied to the `i32` sum of position and
velocity (lines 384-387): reduction modulo 2^16. -/
def wrap16 (z : Int) : Nat := (z % 65536).toNat

/-- The x coordinate of the ball after the component-wise move of
lines 384-387 (Rust tuple index `.0`). -/
def moved_x (g : GameState) : Nat :=
  wrap16 (g.ball.velocity.1 + (g.ball.position.1 : Int))

/-- The y coordinate of the ball after the component-wise move of
lines 384-387 (Rust tuple index `.1`). -/
def moved_y (g : GameState) : Nat :=
  wrap16 (g.ball.velocity.2 + (g.ball.position.2 : Int))

/-- `move_ball`: the component-wise `ball.position += ball.velocity` of
lines 384-387, with each component cast back to `u16`. -/
def move_ball (g : GameState) : GameState :=
  { g with ball := { g.ball with position := (moved_x g, moved_y g) } }

/-- The four sends of `render_all` (lines 428-433), in order. -/
def render_all_signals : List Renderable :=
  [Renderable.BatLeft, Renderable.BatRight, Renderable.Scoreboard, Renderable.Ball]

/-- The horizontal (wall/paddle) block of `update_ball_position`
(lines 388-414), acting on the already-moved state.  Note both span
comparisons are strict: `position.1 > bat.position && position.1 < bat.position
+ bat.height`. -/
def horizontal_step (g : GameState) : GameState × List Renderable :=
  if g.ball.position.1 ≤ 10 then
    if g.ball.position.2 > g.left.position ∧
        g.ball.position.2 < g.left.position + g.left.height then
      ({ g with
          ball := { position := (10, g.ball.position.2),
                    velocity := (g.ball.velocity.1 * -1, g.ball.velocity.2) },
          left := g.left.score_up },
        [Renderable.BatLeft, Renderable.Scoreboard])
    else
      ({ g with is_lost := true }, render_all_signals)
  else if g.ball.position.1 ≥ 990 then
    if g.ball.position.2 > g.right.position ∧
        g.ball.position.2 < g.right.position + g.right.height then
      ({ g with
          ball := { position := (990, g.ball.position.2),
                    velocity := (g.ball.velocity.1 * -1, g.ball.velocity.2) },
          right := g.right.score_up },
        [Renderable.BatRight, Renderable.Scoreboard])
    else
      ({ g with is_lost := true }, render_all_signals)
  else
    (g, [])

/-- The vertical (top/bottom bounce) block of `update_ball_position`
(lines 415-423).  On the `u16` value the test `position.1 <= 0` only fires at
exactly `0`. -/
def vertical_step (g : GameState) : GameState × List Renderable :=
  if g.ball.position.2 ≤ 0 then
    ({ g with
        ball := { position := (g.ball.position.1, 0),
                  velocity := (g.ball.velocity.1, g.ball.velocity.2 * -1) } },
      [Renderable.Scoreboard])
  else if g.ball.position.2 ≥ 990 then
    ({ g with
        ball := { position := (g.ball.position.1, 990),
                  velocity := (g.ball.velocity.1, g.ball.velocity.2 * -1) } },
      [Renderable.Scoreboard])
  else
    (g, [])

/-- `update_ball_position` (lines 382-425), the spec's `advance`: move the
ball, run the horizontal wall/paddle block, run the vertical bounce block,
and always send `Renderable::Ball` last (line 424).  Returns the next state
and the ordered list of signals sent to the renderer. -/
def update_ball_position (g : GameState) : GameState × List Renderable :=
  let g1 := move_ball g
  let h := horizontal_step g1
  let v := vertical_step h.1
  (v.1, h.2 ++ v.2 ++ [Renderable.Ball])

/-- One driver tick restricted to its state effect. -/
def tick (g : GameState) : GameState := (update_ball_position g).1

/-- Spec Scenario 2: ball `(15,500)`, velocity `(-15,0)`, left paddle at 400
with height 200, everything else default. -/
def scenario2_state : GameState :=
  { left := { up_key := "w", down_key := "s", position := 400, height := 200, score := 0 },
    right := Bat.default_right,
    ball := { position := (15, 500), velocity := (-15, 0) },
    is_running := true, is_lost := false }

/-- Spec Scenario 3: same ball, left paddle at 0 with height 100. -/
def scenario3_state : GameState :=
  { left := { up_key := "w", down_key := "s", position := 0, height := 100, score := 0 },
    right := Bat.default_right,
    ball := { position := (15, 500), velocity := (-15, 0) },
    is_running := true, is_lost := false }

/-- A state whose moved ball lands exactly on the lower edge of the left
paddle's span: ball `(25,400)` with velocity `(-15,0)` moves to `(10,400)`
while the left paddle covers `400..600`. -/
def edge_low_state : GameState :=
  { left := { up_key := "w", down_key := "s", position := 400, height := 200, score := 0 },
    right := Bat.default_right,
    ball := { position := (25, 400), velocity := (-15, 0) },
    is_running := true, is_lost := false }

/-- A second lower-edge state: ball `(20,305)` with velocity `(-10,-5)` moves
to `(10,300)` while the left paddle covers `300..450`. -/
def edge_low_state2 : GameState :=
  { left := { up_key := "w", down_key := "s", position := 300, height := 150, score := 0 },
    right := Bat.default_right,
    ball := { position := (20, 305), velocity := (-10, -5) },
    is_running := true, is_lost := false }

/-- Moved ball lands exactly on the upper edge of the left paddle's span:
`(20,455)` with velocity `(-10,-5)` moves to `(10,450)`, paddle covers
`300..450`. -/
def edge_high_state : GameState :=
  { left := { up_key := "w", down_key := "s", position := 300, height := 150, score := 0 },
    right := Bat.default_right,
    ball := { position := (20, 455), velocity := (-10, -5) },
    is_running := true, is_lost := false }

/-- Moved ball lands strictly inside the left paddle's span: `(20,400)` with
velocity `(-10,-5)` moves to `(10,395)`, paddle covers `300..450`. -/
def inside_left_state : GameState :=
  { left := { up_key := "w", down_key := "s", position := 300, height := 150, score := 0 },
    right := Bat.default_right,
    ball := { position := (20, 400), velocity := (-10, -5) },
    is_running := true, is_lost := false }

/-- Moved ball lands exactly on the lower edge of the right paddle's span:
`(980,595)` with velocity `(15,5)` moves to `(995,600)`, right paddle covers
`600..800`. -/
def edge_low_right_state : GameState :=
  { left := Bat.default_left, right := Bat.default_right,
    ball := { position := (980, 595), velocity := (15, 5) },
    is_running := true, is_lost := false }

/-- Moved ball lands exactly on the upper edge of the right paddle's span:
`(980,795)` with velocity `(15,5)` moves to `(995,800)`. -/
def edge_high_right_state : GameState :=
  { left := Bat.default_left, right := Bat.default_right,
    ball := { position := (980, 795), velocity := (15, 5) },
    is_running := true, is_lost := false }

/-- Moved ball lands strictly inside the right paddle's span: `(980,695)` with
velocity `(15,5)` moves to `(995,700)`. -/
def inside_right_state : GameState :=
  { left := Bat.default_left, right := Bat.default_right,
    ball := { position := (980, 695), velocity := (15, 5) },
    is_running := true, is_lost := false }

/-- A state that misses the right paddle: ball `(980,900)` with velocity
`(15,0)` moves to `(995,900)`, outside the right paddle's `600..800`. -/
def miss_right_state : GameState :=
  { left := Bat.default_left, right := Bat.default_right,
    ball := { position := (980, 900), velocity := (15, 0) },
    is_running := true, is_lost := false }

/-- A state whose mathematical y after the move is negative: ball `(500,2)`
with velocity `(15,-5)`; the `as u16` cast wraps `-3` to `65533`. -/
def negative_y_state : GameState :=
  { left := Bat.default_left, right := Bat.default_right,
    ball := { position := (500, 2), velocity := (15, -5) },
    is_running := true, is_lost := false }

/-! ## Helper lemmas -/

lemma move_ball_left (g : GameState) : (move_ball g).left = g.left := rfl

lemma move_ball_right (g : GameState) : (move_ball g).right = g.right := rfl

lemma move_ball_velocity (g : GameState) : (move_ball g).ball.velocity = g.ball.velocity := rfl

lemma horizontal_step_left_return (g : GameState)
    (hx : g.ball.position.1 ≤ 10)
    (hspan : g.ball.position.2 > g.left.position ∧
      g.ball.position.2 < g.left.position + g.left.height) :
    horizontal_step g =
      ({ g with
          ball := { position := (10, g.ball.position.2),
                    velocity := (g.ball.velocity.1 * -1, g.ball.velocity.2) },
          left := g.left.score_up },
        [Renderable.BatLeft, Renderable.Scoreboard]) := by
  unfold horizontal_step
  rw [if_pos hx, if_pos hspan]

lemma horizontal_step_left_miss (g : GameState)
    (hx : g.ball.position.1 ≤ 10)
    (hm : ¬(g.ball.position.2 > g.left.position ∧
      g.ball.position.2 < g.left.position + g.left.height)) :
    horizontal_step g = ({ g with is_lost := true }, render_all_signals) := by
  unfold horizontal_step
  rw [if_pos hx, if_neg hm]

lemma horizontal_step_right_return (g : GameState)
    (hx : ¬ g.ball.position.1 ≤ 10)
    (hx2 : g.ball.position.1 ≥ 990)
    (hspan : g.ball.position.2 > g.right.position ∧
      g.ball.position.2 < g.right.position + g.right.height) :
    horizontal_step g =
      ({ g with
          ball := { position := (990, g.ball.position.2),
                    velocity := (g.ball.velocity.1 * -1, g.ball.velocity.2) },
          right := g.right.score_up },
        [Renderable.BatRight, Renderable.Scoreboard]) := by
  unfold horizontal_step
  rw [if_neg hx, if_pos hx2, if_pos hspan]

lemma horizontal_step_right_miss (g : GameState)
    (hx : ¬ g.ball.position.1 ≤ 10)
    (hx2 : g.ball.position.1 ≥ 990)
    (hm : ¬(g.ball.position.2 > g.right.position ∧
      g.ball.position.2 < g.right.position + g.right.height)) :
    horizontal_step g = ({ g with is_lost := true }, render_all_signals) := by
  unfold horizontal_step
  rw [if_neg hx, if_pos hx2, if_neg hm]

lemma vertical_step_left (g : GameState) : (vertical_step g).1.left = g.left := by
  unfold vertical_step
  split_ifs <;> rfl

lemma vertical_step_right (g : GameState) : (vertical_step g).1.right = g.right := by
  unfold vertical_step
  split_ifs <;> rfl

lemma vertical_step_is_running (g : GameState) :
    (vertical_step g).1.is_running = g.is_running := by
  unfold vertical_step
  split_ifs <;> rfl

lemma vertical_step_is_lost (g : GameState) : (vertical_step g).1.is_lost = g.is_lost := by
  unfold vertical_step
  split_ifs <;> rfl

lemma vertical_step_x (g : GameState) :
    (vertical_step g).1.ball.position.1 = g.ball.position.1 := by
  unfold vertical_step
  split_ifs <;> rfl

lemma vertical_step_vx (g : GameState) :
    (vertical_step g).1.ball.velocity.1 = g.ball.velocity.1 := by
  unfold vertical_step
  split_ifs <;> rfl

lemma vertical_step_none (g : GameState)
    (h1 : ¬ g.ball.position.2 ≤ 0) (h2 : ¬ g.ball.position.2 ≥ 990) :
    vertical_step g = (g, []) := by
  unfold vertical_step
  rw [if_neg h1, if_neg h2]

lemma update_eq_of_horizontal (g : GameState) (s : GameState) (sigs : List Renderable)
    (hh : horizontal_step (move_ball g) = (s, sigs)) :
    update_ball_position g =
      ((vertical_step s).1, sigs ++ (vertical_step s).2 ++ [Renderable.Ball]) := by
  simp only [update_ball_position, hh]

lemma update_left_return_spec (g : GameState)
    (hx : moved_x g ≤ 10)
    (h1 : g.left.position < moved_y g)
    (h2 : moved_y g < g.left.position + g.left.height) :
    (update_ball_position g).1.ball.position.1 = 10
  ∧ (update_ball_position g).1.ball.velocity.1 = g.ball.velocity.1 * -1
  ∧ (update_ball_position g).1.left = g.left.score_up
  ∧ (update_ball_position g).1.right = g.right
  ∧ (update_ball_position g).1.is_running = g.is_running
  ∧ (update_ball_position g).1.is_lost = g.is_lost
  ∧ ∃ rest, (update_ball_position g).2
      = [Renderable.BatLeft, Renderable.Scoreboard] ++ rest ++ [Renderable.Ball] := by
  have hh := horizontal_step_left_return (move_ball g) hx ⟨h1, h2⟩
  rw [update_eq_of_horizontal g _ _ hh]
  exact ⟨(vertical_step_x _).trans rfl, (vertical_step_vx _).trans rfl,
    (vertical_step_left _).trans rfl, (vertical_step_right _).trans rfl,
    (vertical_step_is_running _).trans rfl, (vertical_step_is_lost _).trans rfl,
    ⟨(vertical_step _).2, rfl⟩⟩

lemma update_right_return_spec (g : GameState)
    (hx : 990 ≤ moved_x g)
    (h1 : g.right.position < moved_y g)
    (h2 : moved_y g < g.right.position + g.right.height) :
    (update_ball_position g).1.ball.position.1 = 990
  ∧ (update_ball_position g).1.ball.velocity.1 = g.ball.velocity.1 * -1
  ∧ (update_ball_position g).1.right = g.right.score_up
  ∧ (update_ball_position g).1.left = g.left
  ∧ (update_ball_position g).1.is_running = g.is_running
  ∧ (update_ball_position g).1.is_lost = g.is_lost
  ∧ ∃ rest, (update_ball_position g).2
      = [Renderable.BatRight, Renderable.Scoreboard] ++ rest ++ [Renderable.Ball] := by
  have hx' : ¬ moved_x g ≤ 10 := by omega
  have hh := horizontal_step_right_return (move_ball g) hx' hx ⟨h1, h2⟩
  rw [update_eq_of_horizontal g _ _ hh]
  exact ⟨(vertical_step_x _).trans rfl, (vertical_step_vx _).trans rfl,
    (vertical_step_right _).trans rfl, (vertical_step_left _).trans rfl,
    (vertical_step_is_running _).trans rfl, (vertical_step_is_lost _).trans rfl,
    ⟨(vertical_step _).2, rfl⟩⟩

lemma update_left_miss_spec (g : GameState)
    (hx : moved_x g ≤ 10)
    (hm : ¬(moved_y g > g.left.position ∧ moved_y g < g.left.position + g.left.height)) :
    (update_ball_position g).1.left = g.left
  ∧ (update_ball_position g).1.right = g.right
  ∧ (update_ball_position g).1.is_running = g.is_running
  ∧ (update_ball_position g).1.is_lost = true
  ∧ (∃ mid, (update_ball_position g).2 = render_all_signals ++ mid ++ [Renderable.Ball])
  ∧ (0 < moved_y g → moved_y g < 990 →
      (update_ball_position g).2 = render_all_signals ++ [Renderable.Ball]) := by
  have hh := horizontal_step_left_miss (move_ball g) hx hm
  rw [update_eq_of_horizontal g _ _ hh]
  refine ⟨(vertical_step_left _).trans rfl, (vertical_step_right _).trans rfl,
    (vertical_step_is_running _).trans rfl, (vertical_step_is_lost _).trans rfl,
    ⟨(vertical_step _).2, rfl⟩, ?_⟩
  intro hy1 hy2
  have hv := vertical_step_none { move_ball g with is_lost := true }
    (show ¬ moved_y g ≤ 0 by omega) (show ¬ moved_y g ≥ 990 by omega)
  rw [hv]
  simp

lemma update_right_miss_spec (g : GameState)
    (hx : 990 ≤ moved_x g)
    (hm : ¬(moved_y g > g.right.position ∧ moved_y g < g.right.position + g.right.height)) :
    (update_ball_position g).1.left = g.left
  ∧ (update_ball_position g).1.right = g.right
  ∧ (update_ball_position g).1.is_running = g.is_running
  ∧ (update_ball_position g).1.is_lost = true
  ∧ (∃ mid, (update_ball_position g).2 = render_all_signals ++ mid ++ [Renderable.Ball])
  ∧ (0 < moved_y g → moved_y g < 990 →
      (update_ball_position g).2 = render_all_signals ++ [Renderable.Ball]) := by
  have hx' : ¬ moved_x g ≤ 10 := by omega
  have hh := horizontal_step_right_miss (move_ball g) hx' hx hm
  rw [update_eq_of_horizontal g _ _ hh]
  refine ⟨(vertical_step_left _).trans rfl, (vertical_step_right _).trans rfl,
    (vertical_step_is_running _).trans rfl, (vertical_step_is_lost _).trans rfl,
    ⟨(vertical_step _).2, rfl⟩, ?_⟩
  intro hy1 hy2
  have hv := vertical_step_none { move_ball g with is_lost := true }
    (show ¬ moved_y g ≤ 0 by omega) (show ¬ moved_y g ≥ 990 by omega)
  rw [hv]
  simp

lemma horizontal_step_velocity_natAbs (g : GameState) :
    (horizontal_step g).1.ball.velocity.1.natAbs = g.ball.velocity.1.natAbs
  ∧ (horizontal_step g).1.ball.velocity.2.natAbs = g.ball.velocity.2.natAbs := by
  unfold horizontal_step
  split_ifs <;> simp [Int.natAbs_mul]

lemma vertical_step_velocity_natAbs (g : GameState) :
    (vertical_step g).1.ball.velocity.1.natAbs = g.ball.velocity.1.natAbs
  ∧ (vertical_step g).1.ball.velocity.2.natAbs = g.ball.velocity.2.natAbs := by
  unfold vertical_step
  split_ifs <;> simp [Int.natAbs_mul]

lemma tick_velocity_natAbs (g : GameState) :
    (tick g).ball.velocity.1.natAbs = g.ball.velocity.1.natAbs
  ∧ (tick g).ball.velocity.2.natAbs = g.ball.velocity.2.natAbs := by
  have h1 := horizontal_step_velocity_natAbs (move_ball g)
  have h2 := vertical_step_velocity_natAbs ((horizontal_step (move_ball g)).1)
  simp only [tick, update_ball_position]
  exact ⟨h2.1.trans (h1.1.trans rfl), h2.2.trans (h1.2.trans rfl)⟩

/-! ## Claims -/

/-- Claim C4 (code bug): the spec says a ball whose y after adding the
velocity reaches or passes a vertical bound — explicitly including a negative
`position.y + velocity.y` — is clamped to that same bound, `0` at the top.
The code instead casts the sum to `u16` first, so a negative sum wraps past
`990` and is clamped to the bottom: from ball `(500,2)` with velocity
`(15,-5)` the mathematical y is `-3`, yet the tick lands the ball at
`y = 990` with vy negated. -/
theorem claim4_negative_y_wraps_to_bottom :
    ((negative_y_state.ball.position.2 : Int) + negative_y_state.ball.velocity.2 = -3)
  ∧ moved_y negative_y_state = 65533
  ∧ (update_ball_position negative_y_state).1.ball.position.2 = 990
  ∧ (update_ball_position negative_y_state).1.ball.position.2 ≠ 0
  ∧ (update_ball_position negative_y_state).1.ball.velocity.2 = 5
  ∧ (update_ball_position negative_y_state).2 = [Renderable.Scoreboard, Renderable.Ball] := by
  decide

/-- Claim C5: for all paddle positions `p` and heights `h` with
`0 ≤ p ≤ 1000 - h`, moving up by the fixed step of 50 floors the position at
0, and moving down ceilings it at `1000 - h`. -/
theorem claim5_move_bat_clamped (b : Bat)
    (h1 : b.height ≤ 1000) (h2 : b.position ≤ 1000 - b.height) :
    (((move_bat b keypress_offset Direction.Up).position : Int)
        = max ((b.position : Int) - 50) 0)
  ∧ (move_bat b keypress_offset Direction.Down).position
        = min (1000 - b.height) (b.position + 50)
  ∧ (move_bat b keypress_offset Direction.Down).position ≤ 1000 - b.height := by
  refine ⟨?_, rfl, min_le_left _ _⟩
  simp only [move_bat, keypress_offset]
  split_ifs with h
  · omega
  · omega

theorem claim5_move_bat_clamped_witness :
    (((move_bat Bat.default_left keypress_offset Direction.Up).position : Int)
        = max ((Bat.default_left.position : Int) - 50) 0)
  ∧ (move_bat Bat.default_left keypress_offset Direction.Down).position
        = min (1000 - Bat.default_left.height) (Bat.default_left.position + 50)
  ∧ (move_bat Bat.default_left keypress_offset Direction.Down).position
        ≤ 1000 - Bat.default_left.height :=
  claim5_move_bat_clamped Bat.default_left (by decide) (by decide)

/-- Claim C7: `advance` (`update_ball_position`) is deterministic — two runs
from the same state produce the same next state and the same ordered signal
list. -/
theorem claim7_deterministic (s t : GameState) (h : s = t) :
    update_ball_position s = update_ball_position t := by
  rw [h]

theorem claim7_deterministic_witness :
    update_ball_position GameState.default = update_ball_position GameState.default :=
  claim7_deterministic GameState.default GameState.default rfl

/-- Claim C8: `reset` is idempotent — applying it twice yields exactly the
state of applying it once (it overwrites every field with its default). -/
theorem claim8_reset_idempotent (g : GameState) :
    (g.reset).reset = g.reset := rfl

/-- Claim C10: one tick of `update_ball_position` preserves the absolute
values of both velocity components (collisions only flip signs), so a match
run from the default state keeps `|vx| = 15` and `|vy| = 5` after any number
of ticks. -/
theorem claim10_speed_invariant :
    (∀ g : GameState,
        (update_ball_position g).1.ball.velocity.1.natAbs = g.ball.velocity.1.natAbs
      ∧ (update_ball_position g).1.ball.velocity.2.natAbs = g.ball.velocity.2.natAbs)
  ∧ (∀ n : Nat,
        (tick^[n] GameState.default).ball.velocity.1.natAbs = 15
      ∧ (tick^[n] GameState.default).ball.velocity.2.natAbs = 5) := by
  constructor
  · exact fun g => tick_velocity_natAbs g
  · intro n
    induction n with
    | zero => exact ⟨rfl, rfl⟩
    | succ n ih =>
        rw [Function.iterate_succ_apply']
        exact ⟨(tick_velocity_natAbs _).1.trans ih.1, (tick_velocity_natAbs _).2.trans ih.2⟩

/-- Claim C1 (amended): for every state whose moved ball reaches `x ≤ 10`
with y strictly inside the left paddle's span — the code's span test is
strict at the lower edge, see the counterexample — the tick clamps x to 10,
negates vx, increments the left score by exactly 1, sets the left height to
`max(10, height - height/10)`, and emits `[BatLeft, Scoreboard]` before the
final `Ball`; symmetrically at `x ≥ 990` for the right paddle; and Scenario 2
evaluates exactly as the spec states. -/
theorem claim1_defended_return :
    (∀ g : GameState, moved_x g ≤ 10 →
      g.left.position < moved_y g → moved_y g < g.left.position + g.left.height →
        ((update_ball_position g).1.ball.position.1 = 10
         ∧ (update_ball_position g).1.ball.velocity.1 = g.ball.velocity.1 * -1
         ∧ (update_ball_position g).1.left.score = g.left.score + 1
         ∧ (update_ball_position g).1.left.height = max 10 (g.left.height - g.left.height / 10)
         ∧ ∃ rest, (update_ball_position g).2
             = [Renderable.BatLeft, Renderable.Scoreboard] ++ rest ++ [Renderable.Ball]))
  ∧ (∀ g : GameState, 990 ≤ moved_x g →
      g.right.position < moved_y g → moved_y g < g.right.position + g.right.height →
        ((update_ball_position g).1.ball.position.1 = 990
         ∧ (update_ball_position g).1.ball.velocity.1 = g.ball.velocity.1 * -1
         ∧ (update_ball_position g).1.right.score = g.right.score + 1
         ∧ (update_ball_position g).1.right.height = max 10 (g.right.height - g.right.height / 10)
         ∧ ∃ rest, (update_ball_position g).2
             = [Renderable.BatRight, Renderable.Scoreboard] ++ rest ++ [Renderable.Ball]))
  ∧ ((update_ball_position scenario2_state).1.ball.position = (10, 500)
     ∧ (update_ball_position scenario2_state).1.ball.velocity = (15, 0)
     ∧ (update_ball_position scenario2_state).1.left.score = 1
     ∧ (update_ball_position scenario2_state).1.left.height = 180
     ∧ (update_ball_position scenario2_state).2
         = [Renderable.BatLeft, Renderable.Scoreboard, Renderable.Ball]) := by
  refine ⟨?_, ?_, by decide⟩
  · intro g hx h1 h2
    obtain ⟨hp, hv, hl, _, _, _, hs⟩ := update_left_return_spec g hx h1 h2
    exact ⟨hp, hv, (congrArg Bat.score hl).trans rfl, (congrArg Bat.height hl).trans rfl, hs⟩
  · intro g hx h1 h2
    obtain ⟨hp, hv, hr, _, _, _, hs⟩ := update_right_return_spec g hx h1 h2
    exact ⟨hp, hv, (congrArg Bat.score hr).trans rfl, (congrArg Bat.height hr).trans rfl, hs⟩

/-- Witness for C1: the amended theorem applied to Scenario 2. -/
theorem claim1_defended_return_witness :
    (update_ball_position scenario2_state).1.ball.position.1 = 10
  ∧ (update_ball_position scenario2_state).1.ball.velocity.1
      = scenario2_state.ball.velocity.1 * -1
  ∧ (update_ball_position scenario2_state).1.left.score = scenario2_state.left.score + 1
  ∧ (update_ball_position scenario2_state).1.left.height
      = max 10 (scenario2_state.left.height - scenario2_state.left.height / 10)
  ∧ ∃ rest, (update_ball_position scenario2_state).2
      = [Renderable.BatLeft, Renderable.Scoreboard] ++ rest ++ [Renderable.Ball] :=
  claim1_defended_return.1 scenario2_state (by decide) (by decide) (by decide)

/-- Counterexample to C1 as stated: with the spec's half-open span
`[position, position + height)`, `edge_low_state` (moved ball `(10,400)`,
left paddle covering 400 to 600) should be a defended return with score 1;
the code's strict lower comparison resolves it as a miss — the score stays 0
and `is_lost` becomes true. -/
theorem claim1_counterexample :
    moved_x edge_low_state ≤ 10
  ∧ edge_low_state.left.position ≤ moved_y edge_low_state
  ∧ moved_y edge_low_state < edge_low_state.left.position + edge_low_state.left.height
  ∧ (update_ball_position edge_low_state).1.left.score = 0
  ∧ (update_ball_position edge_low_state).1.is_lost = true := by
  decide

/-- Claim C2 (amended): when the moved ball crosses a wall threshold with y
outside the defending paddle's span `[position, position + height)`, the tick
sets `is_lost` and emits `render_all`'s four signals followed by any
vertical-bounce `Scoreboard` and the unconditional final `Ball` — so with no
vertical bounce the list is exactly `[BatLeft, BatRight, Scoreboard, Ball,
Ball]`, five signals with `Ball` last (and twice, not once); Scenario 3
yields `is_lost = true` with exactly those five signals. -/
theorem claim2_miss_signals :
    (∀ g : GameState,
      ((moved_x g ≤ 10 ∧
          (moved_y g < g.left.position ∨ g.left.position + g.left.height ≤ moved_y g))
        ∨ (990 ≤ moved_x g ∧
          (moved_y g < g.right.position ∨ g.right.position + g.right.height ≤ moved_y g))) →
        ((update_ball_position g).1.is_lost = true
         ∧ (∃ mid, (update_ball_position g).2
             = render_all_signals ++ mid ++ [Renderable.Ball])
         ∧ (0 < moved_y g → moved_y g < 990 →
             (update_ball_position g).2 = render_all_signals ++ [Renderable.Ball])))
  ∧ ((update_ball_position scenario3_state).1.is_lost = true
     ∧ (update_ball_position scenario3_state).2
         = [Renderable.BatLeft, Renderable.BatRight, Renderable.Scoreboard,
            Renderable.Ball, Renderable.Ball]) := by
  refine ⟨?_, by decide⟩
  intro g h
  rcases h with ⟨hx, hy⟩ | ⟨hx, hy⟩
  · obtain ⟨_, _, _, hlost, hmid, hex⟩ := update_left_miss_spec g hx (by omega)
    exact ⟨hlost, hmid, hex⟩
  · obtain ⟨_, _, _, hlost, hmid, hex⟩ := update_right_miss_spec g hx (by omega)
    exact ⟨hlost, hmid, hex⟩

/-- Witness for C2: the amended theorem applied to Scenario 3, with the
vertical-bounce hypotheses discharged. -/
theorem claim2_miss_signals_witness :
    (update_ball_position scenario3_state).1.is_lost = true
  ∧ (∃ mid, (update_ball_position scenario3_state).2
      = render_all_signals ++ mid ++ [Renderable.Ball])
  ∧ (update_ball_position scenario3_state).2
      = render_all_signals ++ [Renderable.Ball] := by
  obtain ⟨h1, h2, h3⟩ := claim2_miss_signals.1 scenario3_state (by decide)
  exact ⟨h1, h2, h3 (by decide) (by decide)⟩

/-- Counterexample to C2 as stated: at Scenario 3 the tick's complete signal
list is NOT the four signals `[BatLeft, BatRight, Scoreboard, Ball]` — it is
those four followed by a second `Ball` (the unconditional final send of
`update_ball_position`), so `Ball` is emitted twice. -/
theorem claim2_counterexample :
    (update_ball_position scenario3_state).2
      = [Renderable.BatLeft, Renderable.BatRight, Renderable.Scoreboard,
         Renderable.Ball, Renderable.Ball]
  ∧ (update_ball_position scenario3_state).2
      ≠ [Renderable.BatLeft, Renderable.BatRight, Renderable.Scoreboard, Renderable.Ball]
  ∧ (update_ball_position scenario3_state).2.count Renderable.Ball = 2 := by
  decide

/-- Claim C3 (amended): the defended region at a wall is the open interval
`(position, position + height)` — a moved ball with y exactly `position` is a
miss (not a return, as the claim stated), y exactly `position + height` is a
miss, and y strictly between is a return; symmetrically for the right
paddle. -/
theorem claim3_open_interval :
    (∀ g : GameState, moved_x g ≤ 10 → moved_y g = g.left.position →
        ((update_ball_position g).1.is_lost = true
         ∧ (update_ball_position g).1.left = g.left))
  ∧ (∀ g : GameState, moved_x g ≤ 10 → moved_y g = g.left.position + g.left.height →
        ((update_ball_position g).1.is_lost = true
         ∧ (update_ball_position g).1.left = g.left))
  ∧ (∀ g : GameState, moved_x g ≤ 10 →
      g.left.position < moved_y g → moved_y g < g.left.position + g.left.height →
        ((update_ball_position g).1.left.score = g.left.score + 1
         ∧ (update_ball_position g).1.is_lost = g.is_lost))
  ∧ (∀ g : GameState, 990 ≤ moved_x g → moved_y g = g.right.position →
        ((update_ball_position g).1.is_lost = true
         ∧ (update_ball_position g).1.right = g.right))
  ∧ (∀ g : GameState, 990 ≤ moved_x g → moved_y g = g.right.position + g.right.height →
        ((update_ball_position g).1.is_lost = true
         ∧ (update_ball_position g).1.right = g.right))
  ∧ (∀ g : GameState, 990 ≤ moved_x g →
      g.right.position < moved_y g → moved_y g < g.right.position + g.right.height →
        ((update_ball_position g).1.right.score = g.right.score + 1
         ∧ (update_ball_position g).1.is_lost = g.is_lost)) := by
  refine ⟨?_, ?_, ?_, ?_, ?_, ?_⟩
  · intro g hx hy
    obtain ⟨hl, _, _, hlost, _, _⟩ := update_left_miss_spec g hx (by omega)
    exact ⟨hlost, hl⟩
  · intro g hx hy
    obtain ⟨hl, _, _, hlost, _, _⟩ := update_left_miss_spec g hx (by omega)
    exact ⟨hlost, hl⟩
  · intro g hx h1 h2
    obtain ⟨_, _, hl, _, _, hlost, _⟩ := update_left_return_spec g hx h1 h2
    exact ⟨(congrArg Bat.score hl).trans rfl, hlost⟩
  · intro g hx hy
    obtain ⟨_, hr, _, hlost, _, _⟩ := update_right_miss_spec g hx (by omega)
    exact ⟨hlost, hr⟩
  · intro g hx hy
    obtain ⟨_, hr, _, hlost, _, _⟩ := update_right_miss_spec g hx (by omega)
    exact ⟨hlost, hr⟩
  · intro g hx h1 h2
    obtain ⟨_, _, hr, _, _, hlost, _⟩ := update_right_return_spec g hx h1 h2
    exact ⟨(congrArg Bat.score hr).trans rfl, hlost⟩

/-- Witness for C3: the amended theorem applied at each of the six edge and
interior cases on concrete states. -/
theorem claim3_open_interval_witness :
    ((update_ball_position edge_low_state2).1.is_lost = true
     ∧ (update_ball_position edge_low_state2).1.left = edge_low_state2.left)
  ∧ ((update_ball_position edge_high_state).1.is_lost = true
     ∧ (update_ball_position edge_high_state).1.left = edge_high_state.left)
  ∧ ((update_ball_position inside_left_state).1.left.score
        = inside_left_state.left.score + 1
     ∧ (update_ball_position inside_left_state).1.is_lost = inside_left_state.is_lost)
  ∧ ((update_ball_position edge_low_right_state).1.is_lost = true
     ∧ (update_ball_position edge_low_right_state).1.right = edge_low_right_state.right)
  ∧ ((update_ball_position edge_high_right_state).1.is_lost = true
     ∧ (update_ball_position edge_high_right_state).1.right = edge_high_right_state.right)
  ∧ ((update_ball_position inside_right_state).1.right.score
        = inside_right_state.right.score + 1
     ∧ (update_ball_position inside_right_state).1.is_lost = inside_right_state.is_lost) :=
  ⟨claim3_open_interval.1 edge_low_state2 (by decide) (by decide),
   claim3_open_interval.2.1 edge_high_state (by decide) (by decide),
   claim3_open_interval.2.2.1 inside_left_state (by decide) (by decide) (by decide),
   claim3_open_interval.2.2.2.1 edge_low_right_state (by decide) (by decide),
   claim3_open_interval.2.2.2.2.1 edge_high_right_state (by decide) (by decide),
   claim3_open_interval.2.2.2.2.2 inside_right_state (by decide) (by decide) (by decide)⟩

/-- Counterexample to C3 as stated: a moved ball whose y is exactly
`left.position` (state `edge_low_state2`, moved ball `(10,300)`, paddle
covering 300 to 450) is resolved as a miss, not a return: `is_lost` becomes
true and the score does not change. -/
theorem claim3_counterexample :
    moved_x edge_low_state2 ≤ 10
  ∧ moved_y edge_low_state2 = edge_low_state2.left.position
  ∧ (update_ball_position edge_low_state2).1.is_lost = true
  ∧ (update_ball_position edge_low_state2).1.left.score = edge_low_state2.left.score := by
  decide

/-- Claim C6: a tick that resolves as an undefended miss leaves both paddles
(positions, heights, scores) and `is_running` unchanged; it only modifies the
ball and `is_lost`, which becomes true. -/
theorem claim6_miss_frame (g : GameState)
    (h : (moved_x g ≤ 10 ∧
           ¬(moved_y g > g.left.position ∧ moved_y g < g.left.position + g.left.height))
       ∨ (990 ≤ moved_x g ∧
           ¬(moved_y g > g.right.position ∧ moved_y g < g.right.position + g.right.height))) :
    (update_ball_position g).1.left = g.left
  ∧ (update_ball_position g).1.right = g.right
  ∧ (update_ball_position g).1.is_running = g.is_running
  ∧ (update_ball_position g).1.is_lost = true := by
  rcases h with ⟨hx, hm⟩ | ⟨hx, hm⟩
  · obtain ⟨hl, hr, hrun, hlost, _, _⟩ := update_left_miss_spec g hx hm
    exact ⟨hl, hr, hrun, hlost⟩
  · obtain ⟨hl, hr, hrun, hlost, _, _⟩ := update_right_miss_spec g hx hm
    exact ⟨hl, hr, hrun, hlost⟩

/-- Witness for C6: the theorem applied to a concrete right-side miss. -/
theorem claim6_miss_frame_witness :
    (update_ball_position miss_right_state).1.left = miss_right_state.left
  ∧ (update_ball_position miss_right_state).1.right = miss_right_state.right
  ∧ (update_ball_position miss_right_state).1.is_running = miss_right_state.is_running
  ∧ (update_ball_position miss_right_state).1.is_lost = true :=
  claim6_miss_frame miss_right_state (by decide)

end RsPong
